import Mathlib

/-!
# luks-usb-manager: a shallow embedding of `luks-usb-manager.c`

The program toggles one LUKS volume: `main` asks `is_unlocked` and runs either
`lock_partition` or `unlock_partition`.  Every function of the C file is
translated below.  The services the program calls (libudev, libcryptsetup,
termios, stdio, mount/umount/sync/stat) are not part of the repository; each call
site gets its answer from an `Oracle` value, and every call is recorded, with its
arguments and its answer, in a trace of `Event`s.  No call site of the program is
executed twice in one run (the only loop walks the udev entry list), so an
`Oracle` describes every possible behaviour of the services during a run.

Bytes are natural numbers, C strings and buffers are lists of bytes, return codes
are integers.
-/

namespace LuksUsbManager

/-! ## Configuration constants (the `#define`s) -/

def FILESYSTEM_UUID : String := "ada0de09-6103-4216-93f5-c6a7b02f3248"
def LUKS_DEVICE_UUID : String := "b472bee4-4c67-4103-b491-c1b3e869cb81"
def MAPPER_NAME : String := "encrypted_usb"
def MAPPED_DEVICE : String := "/dev/mapper/encrypted_usb"
def MOUNT_POINT : String := "/mnt/encrypted_usb"
def MAX_PASS_LEN : Nat := 256
def FILESYSTEM_TYPE : String := "xfs"
/-- The value of `PATH_MAX` from `limits.h` on Linux. -/
def PATH_MAX : Nat := 4096
/-- The value of `ECHO` from `termios.h` on Linux (octal 10). -/
def ECHO : Nat := 8

/-! ## The C library on byte buffers -/

/-- The byte of the line terminator. -/
def NEWLINE : Nat := 10

/-- The bytes of `buf` before its first NUL: the C string stored in `buf`. -/
def cstr (buf : List Nat) : List Nat := buf.takeWhile (fun b => b != 0)

/-- C `strlen`: the number of bytes before the first NUL. -/
def strlen (buf : List Nat) : Nat := (cstr buf).length

/-- C `strcspn(s, reject)`: the length of the longest initial part of the C string
in `s` that holds no byte of `reject`.  For an array that holds neither a NUL nor a
byte of `reject` the count stops at the end of the list, where C would read on. -/
def strcspn (s reject : List Nat) : Nat :=
  (s.takeWhile (fun b => b != 0 && !(reject.contains b))).length

/-- C `strncpy(dst, src, n)` where `src` is a C string: the first `n` bytes of
`src` are copied, and when `src` is shorter than `n` the rest of the `n` bytes is
filled with NUL.  Bytes of `dst` from index `n` on are kept; `dst` is expected to
have room for `n` bytes, as it has at the call in `unlock_partition`. -/
def strncpy (dst src : List Nat) (n : Nat) : List Nat :=
  (cstr src ++ List.replicate n 0).take n ++ dst.drop n

/-- The bytes one `fgets` call with room for `k` characters takes from the stream:
it stops after `k` bytes, or after a newline, or at the end of the stream. -/
def fgets_chars : Nat → List Nat → List Nat
  | 0, _ => []
  | _ + 1, [] => []
  | k + 1, c :: cs => if c = NEWLINE then [c] else c :: fgets_chars k cs

/-- What `fgets` gives back: whether it returned the buffer (`ok`) or NULL, and the
buffer afterwards. -/
structure FgetsResult where
  ok : Bool
  buf : List Nat
  deriving DecidableEq, Repr

/-- Overwrite the first bytes of `buf` with `chars` followed by a NUL. -/
def store_line (buf chars : List Nat) : List Nat :=
  chars ++ [0] ++ buf.drop (chars.length + 1)

/-- C `fgets(buf, n, stream)` where `stream` lists the bytes still to come before
the end of the input.  With `n <= 0` it returns NULL; with `n = 1` it stores the
NUL only; otherwise it reads at most `n - 1` bytes, and when the input has ended
before any byte was read it returns NULL and leaves the buffer as it was. -/
def fgets (buf : List Nat) (n : Int) (stream : List Nat) : FgetsResult :=
  if n ≤ 0 then { ok := false, buf := buf }
  else if n = 1 then { ok := true, buf := store_line buf [] }
  else
    let chars := fgets_chars (n.toNat - 1) stream
    if chars = [] then { ok := false, buf := buf }
    else { ok := true, buf := store_line buf chars }

/-- The conversion of a `size_t` to the `int` parameter of `fgets`: the low 32 bits,
read as a signed number. -/
def size_to_int (size : Nat) : Int :=
  let m : Nat := size % 2 ^ 32
  if m < 2 ^ 31 then (m : Int) else (m : Int) - 2 ^ 32

/-! ## Terminal attributes -/

/-- The flag words of `struct termios`. -/
structure Termios where
  c_iflag : Nat
  c_oflag : Nat
  c_cflag : Nat
  c_lflag : Nat
  deriving DecidableEq, Repr

/-- The statement `newt.c_lflag &= ~ECHO` on a 32-bit `tcflag_t`. -/
def clear_echo (t : Termios) : Termios :=
  { t with c_lflag := t.c_lflag &&& (0xFFFFFFFF ^^^ ECHO) }

/-! ## Events: the calls the program makes to the outside -/

/-- One call to an external service, with the arguments the claims talk about and
the answer it gave. -/
inductive Event where
  | printf (text : String)
  | fprintf_stderr (text : String)
  | perror (text : String)
  | getchar
  | tcgetattr (ret : Int)
  | tcsetattr (attrs : Termios) (ret : Int)
  | fgets (size : Int) (ok : Bool)
  | udev_new (ok : Bool)
  | udev_enumerate_new (ok : Bool)
  | udev_enumerate_add_match_property (property value : String)
  | udev_enumerate_scan_devices
  | udev_enumerate_get_list_entry
  | udev_list_entry_get_name (name : String)
  | udev_device_new_from_syspath (name : String) (ok : Bool)
  | udev_device_get_devnode (ok : Bool)
  | udev_device_unref
  | udev_enumerate_unref
  | udev_unref
  | stat (path : String) (ret : Int)
  | crypt_init (device : List Nat) (ret : Int) (cd : Nat)
  | crypt_load (cd : Nat) (ret : Int)
  | crypt_activate_by_passphrase (cd : Nat) (name : String) (passphrase : List Nat)
      (len : Nat) (ret : Int)
  | crypt_free (cd : Nat)
  | crypt_init_by_name (name : String) (ret : Int) (cd : Nat)
  | crypt_deactivate (cd : Nat) (name : String) (ret : Int)
  | mkdir (path : String) (ret : Int)
  | mount (source target fstype : String) (ret : Int)
  | sync
  | umount (target : String) (ret : Int)
  deriving DecidableEq, Repr

/-! ## `wait_for_user` -/

/-- The function `wait_for_user`: print the hint and wait for a key. -/
def wait_for_user : List Event :=
  [Event.printf "\nPress ENTER to exit...\n", Event.getchar]

/-! ## `get_hidden_passphrase` -/

/-- The answers of the terminal and of standard input during one prompt. -/
structure PromptEnv where
  /-- Return code of `tcgetattr`. -/
  tcgetattr : Int
  /-- Return code of the `tcsetattr` call that installs the no-echo settings. -/
  tcsetattr_noecho : Int
  /-- Return code of the `tcsetattr` call that restores the saved settings. -/
  tcsetattr_restore : Int
  /-- The bytes standard input still delivers before it ends. -/
  stdin : List Nat
  deriving DecidableEq, Repr

/-- What `get_hidden_passphrase` leaves behind: the buffer, the attributes of the
terminal, and the calls made. -/
structure PromptResult where
  passphrase : List Nat
  term : Termios
  trace : List Event
  deriving DecidableEq, Repr

/-- The function `get_hidden_passphrase(passphrase, size)`.  `term` is the state of
the terminal at entry.  A successful `tcgetattr` stores the current attributes, a
successful `tcsetattr` installs the attributes it is given, and a failing one
leaves the terminal as it is.  The newline is cut off after the read whether or not
`fgets` returned NULL, and the restoring `tcsetattr` is reached on both ways. -/
def get_hidden_passphrase (env : PromptEnv) (term : Termios) (passphrase : List Nat)
    (size : Nat) : PromptResult :=
  if env.tcgetattr ≠ 0 then
    { passphrase := passphrase, term := term,
      trace := [Event.tcgetattr env.tcgetattr,
                Event.fprintf_stderr "Error: Failed to get terminal attributes.\n"] }
  else
    let oldt := term
    let newt := clear_echo oldt
    if env.tcsetattr_noecho ≠ 0 then
      { passphrase := passphrase, term := term,
        trace := [Event.tcgetattr env.tcgetattr,
                  Event.tcsetattr newt env.tcsetattr_noecho,
                  Event.fprintf_stderr "Error: Failed to disable terminal echo.\n"] }
    else
      let r := fgets passphrase (size_to_int size) env.stdin
      let read_error :=
        if r.ok then [] else [Event.fprintf_stderr "Error: Failed to read passphrase.\n"]
      let stripped := r.buf.set (strcspn r.buf [NEWLINE]) 0
      let restore_error :=
        if env.tcsetattr_restore ≠ 0 then
          [Event.fprintf_stderr "Error: Failed to restore terminal settings.\n"]
        else []
      { passphrase := stripped,
        term := if env.tcsetattr_restore = 0 then oldt else newt,
        trace := [Event.tcgetattr env.tcgetattr,
                  Event.tcsetattr newt env.tcsetattr_noecho,
                  Event.printf "Enter LUKS passphrase: ",
                  Event.fgets (size_to_int size) r.ok]
                 ++ read_error
                 ++ [Event.tcsetattr oldt env.tcsetattr_restore]
                 ++ restore_error
                 ++ [Event.printf "\n"] }

/-! ## `get_device_by_uuid` -/

/-- A udev device object: `devnode` is what `udev_device_get_devnode` returns for
it, `none` standing for NULL. -/
structure UdevDevice where
  devnode : Option (List Nat)
  deriving DecidableEq, Repr

/-- One entry of the enumeration: its name (a syspath) and what
`udev_device_new_from_syspath` returns for that name, `none` standing for NULL. -/
structure UdevEntry where
  name : String
  dev : Option UdevDevice
  deriving DecidableEq, Repr

/-- The answers of libudev during one lookup. -/
structure UdevEnv where
  /-- Whether `udev_new` returns a context. -/
  udev_new : Bool
  /-- Whether `udev_enumerate_new` returns an enumeration object. -/
  udev_enumerate_new : Bool
  /-- The list `udev_enumerate_get_list_entry` returns after the scan. -/
  entries : List UdevEntry
  deriving DecidableEq, Repr

/-- The result of a lookup: the return code, the caller's buffer, the calls. -/
structure LookupResult where
  ret : Int
  device_path : List Nat
  trace : List Event
  deriving DecidableEq, Repr

/-- The body of `udev_list_entry_foreach` in `get_device_by_uuid`, together with
the code after the loop.  An entry without a device object is passed over by
`continue`, an entry without a device node is released and passed over, and the
first entry with a device node ends the function with 0. -/
def scan_entries (device_path : List Nat) (size : Nat) : List UdevEntry → LookupResult
  | [] =>
    { ret := -1, device_path := device_path,
      trace := [Event.udev_enumerate_unref, Event.udev_unref] }
  | entry :: rest =>
    match entry.dev with
    | none =>
      let r := scan_entries device_path size rest
      { r with trace := [Event.udev_list_entry_get_name entry.name,
                         Event.udev_device_new_from_syspath entry.name false] ++ r.trace }
    | some dev =>
      match dev.devnode with
      | some devnode =>
        { ret := 0, device_path := strncpy device_path devnode size,
          trace := [Event.udev_list_entry_get_name entry.name,
                    Event.udev_device_new_from_syspath entry.name true,
                    Event.udev_device_get_devnode true,
                    Event.udev_device_unref, Event.udev_enumerate_unref, Event.udev_unref] }
      | none =>
        let r := scan_entries device_path size rest
        { r with trace := [Event.udev_list_entry_get_name entry.name,
                           Event.udev_device_new_from_syspath entry.name true,
                           Event.udev_device_get_devnode false,
                           Event.udev_device_unref] ++ r.trace }

/-- The function `get_device_by_uuid(uuid, device_path, size)`. -/
def get_device_by_uuid (env : UdevEnv) (uuid : String) (device_path : List Nat)
    (size : Nat) : LookupResult :=
  if !env.udev_new then
    { ret := -1, device_path := device_path,
      trace := [Event.udev_new false,
                Event.fprintf_stderr "Error: Failed to initialize udev.
"] }
  else if !env.udev_enumerate_new then
    { ret := -1, device_path := device_path,
      trace := [Event.udev_new true, Event.udev_enumerate_new false,
                Event.fprintf_stderr "Error: Failed to create udev enumerate object.
",
                Event.udev_unref] }
  else
    let r := scan_entries device_path size env.entries
    { r with trace := [Event.udev_new true, Event.udev_enumerate_new true,
                       Event.udev_enumerate_add_match_property "ID_FS_UUID" uuid,
                       Event.udev_enumerate_scan_devices,
                       Event.udev_enumerate_get_list_entry] ++ r.trace }

/-! ## `is_unlocked` -/

/-- The function `is_unlocked`: `stat(MAPPED_DEVICE, &st) == 0`, for the return
code `stat_ret` of this `stat` call. -/
def is_unlocked (stat_ret : Int) : Bool × List Event :=
  (decide (stat_ret = 0), [Event.stat MAPPED_DEVICE stat_ret])

/-! ## The oracle of a run -/

/-- The answers of all external services during one run of the program, one per
call site. -/
structure Oracle where
  /-- Return code of `stat` when `main` calls `is_unlocked`. -/
  stat_main : Int
  /-- Return code of `stat` when `lock_partition` calls `is_unlocked`. -/
  stat_lock : Int
  /-- The answers of libudev. -/
  udev : UdevEnv
  /-- Return code of `crypt_init`. -/
  crypt_init : Int
  /-- The handle `crypt_init` or `crypt_init_by_name` stores in `cd` on success. -/
  cd : Nat
  /-- Return code of `crypt_load`. -/
  crypt_load : Int
  /-- The attributes of the terminal when the run starts. -/
  term : Termios
  /-- The answers of the terminal and standard input during the prompt. -/
  prompt : PromptEnv
  /-- Return code of `crypt_activate_by_passphrase`. -/
  crypt_activate_by_passphrase : Int
  /-- Return code of `mkdir`. -/
  mkdir : Int
  /-- Return code of `mount`. -/
  mount : Int
  /-- Return code of `umount`. -/
  umount : Int
  /-- Return code of `crypt_init_by_name`. -/
  crypt_init_by_name : Int
  /-- Return code of `crypt_deactivate`. -/
  crypt_deactivate : Int
  /-- Whether the program was compiled with `__GLIBC__` defined. -/
  glibc : Bool
  deriving DecidableEq, Repr

/-! ## `unlock_partition` -/

/-- The loop `while (*p) *p++ = 0` of the build without glibc: the bytes before the
first NUL are set to zero. -/
def wipe_loop (buf : List Nat) : List Nat :=
  List.replicate (strlen buf) 0 ++ buf.drop (strlen buf)

/-- The call `explicit_bzero(buf, n)`: the first `n` bytes become zero. -/
def explicit_bzero (buf : List Nat) (n : Nat) : List Nat :=
  List.replicate n 0 ++ buf.drop n

/-- The erasure of the passphrase after activation: `explicit_bzero` over
`sizeof(passphrase)` bytes with glibc, the byte loop otherwise. -/
def erase_passphrase (glibc : Bool) (buf : List Nat) : List Nat :=
  if glibc then explicit_bzero buf MAX_PASS_LEN else wipe_loop buf

/-- What a run of `unlock_partition` leaves behind: the two local buffers and the
terminal as they are when the function returns, and the calls made. -/
structure UnlockResult where
  luks_device : List Nat
  passphrase : List Nat
  term : Termios
  trace : List Event
  deriving DecidableEq, Repr

/-- The function `unlock_partition`. -/
def unlock_partition (o : Oracle) : UnlockResult :=
  let luks_device := List.replicate PATH_MAX 0
  let passphrase := List.replicate MAX_PASS_LEN 0
  let found := get_device_by_uuid o.udev LUKS_DEVICE_UUID luks_device PATH_MAX
  if found.ret ≠ 0 then
    { luks_device := found.device_path, passphrase := passphrase, term := o.term,
      trace := found.trace
        ++ [Event.fprintf_stderr "Error: LUKS device not found.
"]
        ++ wait_for_user }
  else if o.crypt_init < 0 then
    { luks_device := found.device_path, passphrase := passphrase, term := o.term,
      trace := found.trace
        ++ [Event.crypt_init (cstr found.device_path) o.crypt_init o.cd,
            Event.fprintf_stderr "Error: Failed to initialize cryptsetup.
"]
        ++ wait_for_user }
  else if o.crypt_load < 0 then
    { luks_device := found.device_path, passphrase := passphrase, term := o.term,
      trace := found.trace
        ++ [Event.crypt_init (cstr found.device_path) o.crypt_init o.cd,
            Event.crypt_load o.cd o.crypt_load,
            Event.fprintf_stderr "Error: Failed to initialize cryptsetup.
"]
        ++ wait_for_user }
  else
    let asked := get_hidden_passphrase o.prompt o.term passphrase MAX_PASS_LEN
    let len := strlen asked.passphrase
    let activate := Event.crypt_activate_by_passphrase o.cd MAPPER_NAME
      (asked.passphrase.take len) len o.crypt_activate_by_passphrase
    if o.crypt_activate_by_passphrase < 0 then
      { luks_device := found.device_path, passphrase := asked.passphrase,
        term := asked.term,
        trace := found.trace
          ++ [Event.crypt_init (cstr found.device_path) o.crypt_init o.cd,
              Event.crypt_load o.cd o.crypt_load]
          ++ asked.trace
          ++ [activate,
              Event.fprintf_stderr "Error: Incorrect LUKS passphrase.
",
              Event.crypt_free o.cd]
          ++ wait_for_user }
    else
      { luks_device := found.device_path,
        passphrase := erase_passphrase o.glibc asked.passphrase,
        term := asked.term,
        trace := found.trace
          ++ [Event.crypt_init (cstr found.device_path) o.crypt_init o.cd,
              Event.crypt_load o.cd o.crypt_load]
          ++ asked.trace
          ++ [activate,
              Event.crypt_free o.cd,
              Event.mkdir MOUNT_POINT o.mkdir,
              Event.mount MAPPED_DEVICE MOUNT_POINT FILESYSTEM_TYPE o.mount]
          ++ (if o.mount = 0 then
                [Event.printf "USB unlocked and mounted at /mnt/encrypted_usb
"]
              else [Event.perror "Failed to mount the unlocked partition"])
          ++ wait_for_user }

/-! ## `lock_partition` -/

/-- The function `lock_partition`: the calls it makes. -/
def lock_partition (o : Oracle) : List Event :=
  let unlocked := is_unlocked o.stat_lock
  if !unlocked.1 then
    unlocked.2 ++ [Event.printf "LUKS partition is already locked.
"] ++ wait_for_user
  else if o.umount ≠ 0 then
    unlocked.2
      ++ [Event.printf "Flushing write buffers...
", Event.sync,
          Event.umount MOUNT_POINT o.umount,
          Event.perror "Error: Failed to unmount the partition"]
      ++ wait_for_user
  else if o.crypt_init_by_name = 0 then
    unlocked.2
      ++ [Event.printf "Flushing write buffers...
", Event.sync,
          Event.umount MOUNT_POINT o.umount,
          Event.crypt_init_by_name MAPPER_NAME o.crypt_init_by_name o.cd,
          Event.crypt_deactivate o.cd MAPPER_NAME o.crypt_deactivate,
          Event.crypt_free o.cd,
          Event.printf "USB locked and unmounted successfully.
"]
      ++ wait_for_user
  else
    unlocked.2
      ++ [Event.printf "Flushing write buffers...
", Event.sync,
          Event.umount MOUNT_POINT o.umount,
          Event.crypt_init_by_name MAPPER_NAME o.crypt_init_by_name o.cd,
          Event.fprintf_stderr "Failed to lock the LUKS partition.
"]
      ++ wait_for_user

/-! ## `main` -/

/-- What a run of `main` does: its exit code and the calls made. -/
structure MainResult where
  exit_code : Int
  trace : List Event
  deriving DecidableEq, Repr

/-- The function `main`. -/
def main (o : Oracle) : MainResult :=
  let unlocked := is_unlocked o.stat_main
  if unlocked.1 then
    { exit_code := 0,
      trace := unlocked.2
        ++ [Event.printf "Partition is already unlocked. Locking it now...
"]
        ++ lock_partition o }
  else
    { exit_code := 0,
      trace := unlocked.2
        ++ [Event.printf "Partition is locked. Unlocking now...
"]
        ++ (unlock_partition o).trace }

/-! ## Vocabulary for statements about traces -/

/-- Whether the event is a call of `crypt_activate_by_passphrase`. -/
def Event.is_activate : Event → Bool
  | Event.crypt_activate_by_passphrase _ _ _ _ _ => true
  | _ => false

/-- Whether the event is a call of `crypt_deactivate`. -/
def Event.is_deactivate : Event → Bool
  | Event.crypt_deactivate _ _ _ => true
  | _ => false

/-- Whether the event is a call of `crypt_init_by_name`. -/
def Event.is_init_by_name : Event → Bool
  | Event.crypt_init_by_name _ _ _ => true
  | _ => false

/-- Whether the event is a call of `umount`. -/
def Event.is_umount : Event → Bool
  | Event.umount _ _ => true
  | _ => false

/-- Whether the event is a call of `sync`. -/
def Event.is_sync : Event → Bool
  | Event.sync => true
  | _ => false

/-- Whether the event is a call of `mount`. -/
def Event.is_mount : Event → Bool
  | Event.mount _ _ _ _ => true
  | _ => false

/-- Whether the event is a call of `mkdir`. -/
def Event.is_mkdir : Event → Bool
  | Event.mkdir _ _ => true
  | _ => false

/-- Whether the event is a call of `crypt_free`. -/
def Event.is_free : Event → Bool
  | Event.crypt_free _ => true
  | _ => false

/-- Whether the event is a `crypt_init` call that succeeded (`< 0` is failure). -/
def Event.is_init_ok : Event → Bool
  | Event.crypt_init _ ret _ => decide (0 ≤ ret)
  | _ => false

/-- Whether the event is a `crypt_load` call that succeeded. -/
def Event.is_load_ok : Event → Bool
  | Event.crypt_load _ ret => decide (0 ≤ ret)
  | _ => false

/-- Whether the event is a `crypt_activate_by_passphrase` call that succeeded. -/
def Event.is_activate_ok : Event → Bool
  | Event.crypt_activate_by_passphrase _ _ _ _ ret => decide (0 ≤ ret)
  | _ => false

/-- Whether the event is a failed step of the unlock pipeline: a `crypt_init`,
`crypt_load` or `crypt_activate_by_passphrase` call with a negative return code. -/
def Event.is_failed_step : Event → Bool
  | Event.crypt_init _ ret _ => decide (ret < 0)
  | Event.crypt_load _ ret => decide (ret < 0)
  | Event.crypt_activate_by_passphrase _ _ _ _ ret => decide (ret < 0)
  | _ => false

/-- Whether the event is one that `get_device_by_uuid` can make: a libudev call or
a message on standard error. -/
def Event.is_lookup : Event → Bool
  | Event.fprintf_stderr _ => true
  | Event.udev_new _ => true
  | Event.udev_enumerate_new _ => true
  | Event.udev_enumerate_add_match_property _ _ => true
  | Event.udev_enumerate_scan_devices => true
  | Event.udev_enumerate_get_list_entry => true
  | Event.udev_list_entry_get_name _ => true
  | Event.udev_device_new_from_syspath _ _ => true
  | Event.udev_device_get_devnode _ => true
  | Event.udev_device_unref => true
  | Event.udev_enumerate_unref => true
  | Event.udev_unref => true
  | _ => false

/-- The `tcsetattr` calls of a trace in order: the attributes passed and the
return code. -/
def tcsetattr_calls : List Event → List (Termios × Int)
  | [] => []
  | Event.tcsetattr attrs ret :: rest => (attrs, ret) :: tcsetattr_calls rest
  | _ :: rest => tcsetattr_calls rest

/-- A checker: every event of the trace that satisfies `q` comes after some event
that satisfies `p` (`seen` tells whether such an event has already passed). -/
def each_preceded (p q : Event → Bool) : Bool → List Event → Bool
  | _, [] => true
  | seen, e :: rest => (!q e || seen) && each_preceded p q (seen || p e) rest

/-- A checker: no event that satisfies `q` comes after an event that satisfies
`p`. -/
def none_after (p q : Event → Bool) : List Event → Bool
  | [] => true
  | e :: rest => (!p e || rest.all (fun x => !q x)) && none_after p q rest

/-- What the scan gets out of an entry: the device node of its device object, or
`none` when the device object cannot be created or has no device node. -/
def UdevEntry.devnode (e : UdevEntry) : Option (List Nat) :=
  match e.dev with
  | none => none
  | some dev => dev.devnode

/-! ## Concrete runs -/

/-- The bytes of `/dev/sdb1`. -/
def dev_sdb1 : List Nat := [47, 100, 101, 118, 47, 115, 100, 98, 49]

/-- The bytes of `/dev/sdc1`. -/
def dev_sdc1 : List Nat := [47, 100, 101, 118, 47, 115, 100, 99, 49]

/-- The bytes of `hunter2`. -/
def hunter2 : List Nat := [104, 117, 110, 116, 101, 114, 50]

/-- A terminal in its usual cooked mode, with `ECHO` set. -/
def sample_term : Termios :=
  { c_iflag := 0x4500, c_oflag := 5, c_cflag := 0xbf, c_lflag := 0x8a3b }

/-- An enumeration of four entries: one whose device object cannot be created, one
without a device node, then `/dev/sdb1` and `/dev/sdc1`. -/
def sample_udev : UdevEnv :=
  { udev_new := true, udev_enumerate_new := true,
    entries :=
      [{ name := "/sys/devices/usb1/block/sda", dev := none },
       { name := "/sys/devices/usb1/block/sdb", dev := some { devnode := none } },
       { name := "/sys/devices/usb1/block/sdb/sdb1", dev := some { devnode := some dev_sdb1 } },
       { name := "/sys/devices/usb2/block/sdc/sdc1",
         dev := some { devnode := some dev_sdc1 } }] }

/-- A prompt at which the operator types `hunter2` and ENTER. -/
def sample_prompt : PromptEnv :=
  { tcgetattr := 0, tcsetattr_noecho := 0, tcsetattr_restore := 0,
    stdin := hunter2 ++ [NEWLINE] }

/-- A run on a locked volume in which every service succeeds. -/
def sample_run : Oracle :=
  { stat_main := -1, stat_lock := -1, udev := sample_udev, crypt_init := 0, cd := 1,
    crypt_load := 0, term := sample_term, prompt := sample_prompt,
    crypt_activate_by_passphrase := 0, mkdir := 0, mount := 0, umount := 0,
    crypt_init_by_name := 0, crypt_deactivate := 0, glibc := true }

/-- A run on an unlocked volume in which every service succeeds. -/
def unlocked_run : Oracle :=
  { sample_run with stat_main := 0, stat_lock := 0 }

/-- A run in which the typed passphrase is rejected (`-EPERM`). -/
def wrong_passphrase_run : Oracle :=
  { sample_run with crypt_activate_by_passphrase := -1 }

/-- A run in which `crypt_init` succeeds and `crypt_load` fails (`-EINVAL`), as for
a device that holds no LUKS2 header. -/
def load_fails_run : Oracle :=
  { sample_run with crypt_load := -22 }

/-- A run on an unlocked volume in which `umount` fails. -/
def umount_fails_run : Oracle :=
  { unlocked_run with umount := -1 }

/-- A run on an unlocked volume in which `crypt_deactivate` fails (`-EBUSY`). -/
def deactivate_fails_run : Oracle :=
  { unlocked_run with crypt_deactivate := -16 }

/-- A run in which standard input is no terminal (`tcgetattr` fails) and the volume
has a key slot with the empty passphrase. -/
def no_terminal_run : Oracle :=
  { sample_run with
    prompt := { tcgetattr := -1, tcsetattr_noecho := 0, tcsetattr_restore := 0,
                stdin := hunter2 ++ [NEWLINE] } }

/-- A run in which standard input is no terminal (`tcgetattr` fails) and the empty
passphrase is rejected (`-EPERM`). -/
def no_terminal_rejected_run : Oracle :=
  { no_terminal_run with crypt_activate_by_passphrase := -1 }

/-- A prompt at which the operator types `a`, a NUL (Ctrl-@), `b` and ENTER. -/
def nul_prompt : PromptEnv :=
  { tcgetattr := 0, tcsetattr_noecho := 0, tcsetattr_restore := 0,
    stdin := [97, 0, 98, NEWLINE] }

/-- A run in which the enumeration finds no entry. -/
def no_device_run : Oracle :=
  { sample_run with udev := { udev_new := true, udev_enumerate_new := true, entries := [] } }

/-- The calls of the lookup in `sample_run`. -/
def sample_lookup_trace : List Event :=
  (get_device_by_uuid sample_udev LUKS_DEVICE_UUID (List.replicate PATH_MAX 0) PATH_MAX).trace

/-- The calls of the prompt in `sample_run`. -/
def sample_prompt_trace : List Event :=
  (get_hidden_passphrase sample_prompt sample_term (List.replicate MAX_PASS_LEN 0)
    MAX_PASS_LEN).trace

/-! ## General lemmas about the checkers -/

theorem each_preceded_sound (p q : Event → Bool) :
    ∀ (tr : List Event) (seen : Bool), each_preceded p q seen tr = true →
      ∀ front e back, tr = front ++ e :: back → q e = true →
        seen = true ∨ ∃ x ∈ front, p x = true := by
  intro tr
  induction tr with
  | nil => intro seen _ front e back h; simp at h
  | cons a rest ih =>
    intro seen hc front e back h hq
    simp only [each_preceded, Bool.and_eq_true, Bool.or_eq_true, Bool.not_eq_true'] at hc
    cases front with
    | nil =>
      simp only [List.nil_append, List.cons.injEq] at h
      obtain ⟨rfl, _⟩ := h
      rcases hc.1 with h1 | h1
      · rw [hq] at h1; cases h1
      · exact Or.inl h1
    | cons b front =>
      simp only [List.cons_append, List.cons.injEq] at h
      obtain ⟨rfl, h⟩ := h
      rcases ih (seen || p a) hc.2 front e back h hq with h1 | ⟨x, hx, hpx⟩
      · simp only [Bool.or_eq_true] at h1
        rcases h1 with h1 | h1
        · exact Or.inl h1
        · exact Or.inr ⟨a, List.mem_cons_self _ _, h1⟩
      · exact Or.inr ⟨x, List.mem_cons_of_mem _ hx, hpx⟩

theorem none_after_sound (p q : Event → Bool) :
    ∀ (tr : List Event), none_after p q tr = true →
      ∀ front e back, tr = front ++ e :: back → p e = true →
        ∀ x ∈ back, q x = false := by
  intro tr
  induction tr with
  | nil => intro _ front e back h; simp at h
  | cons a rest ih =>
    intro hc front e back h hp
    simp only [none_after, Bool.and_eq_true, Bool.or_eq_true, Bool.not_eq_true',
      List.all_eq_true] at hc
    cases front with
    | nil =>
      simp only [List.nil_append, List.cons.injEq] at h
      obtain ⟨rfl, rfl⟩ := h
      rcases hc.1 with h1 | h1
      · rw [hp] at h1; cases h1
      · exact h1
    | cons b front =>
      simp only [List.cons_append, List.cons.injEq] at h
      obtain ⟨rfl, h⟩ := h
      exact ih hc.2 front e back h hp

theorem each_preceded_append (p q : Event → Bool) :
    ∀ (us rest : List Event) (seen : Bool),
      (∀ e ∈ us, p e = false ∧ q e = false) →
      each_preceded p q seen (us ++ rest) = each_preceded p q seen rest := by
  intro us
  induction us with
  | nil => intro rest seen _; rfl
  | cons a us ih =>
    intro rest seen h
    have ha := h a (List.mem_cons_self _ _)
    simp only [List.cons_append, each_preceded, ha.1, ha.2, Bool.not_false, Bool.true_or,
      Bool.true_and, Bool.or_false]
    exact ih rest seen (fun e he => h e (List.mem_cons_of_mem _ he))

theorem none_after_append (p q : Event → Bool) :
    ∀ (us rest : List Event),
      (∀ e ∈ us, p e = false) →
      none_after p q (us ++ rest) = none_after p q rest := by
  intro us
  induction us with
  | nil => intro rest _; rfl
  | cons a us ih =>
    intro rest h
    have ha := h a (List.mem_cons_self _ _)
    simp only [List.cons_append, none_after, ha, Bool.not_false, Bool.true_or, Bool.true_and]
    exact ih rest (fun e he => h e (List.mem_cons_of_mem _ he))

/-! ## The calls of `get_device_by_uuid` -/

theorem scan_entries_lookup (device_path : List Nat) (size : Nat) :
    ∀ (entries : List UdevEntry),
      ∀ e ∈ (scan_entries device_path size entries).trace, e.is_lookup = true := by
  intro entries
  induction entries with
  | nil => simp [scan_entries, Event.is_lookup]
  | cons entry rest ih =>
    unfold scan_entries
    split
    · simpa [or_imp, forall_and, Event.is_lookup] using ih
    · split
      · simp [Event.is_lookup]
      · simpa [or_imp, forall_and, Event.is_lookup] using ih

theorem get_device_by_uuid_lookup (env : UdevEnv) (uuid : String) (device_path : List Nat)
    (size : Nat) :
    ∀ e ∈ (get_device_by_uuid env uuid device_path size).trace, e.is_lookup = true := by
  unfold get_device_by_uuid
  split
  · simp [Event.is_lookup]
  · split
    · simp [Event.is_lookup]
    · simpa [or_imp, forall_and, Event.is_lookup] using
        scan_entries_lookup device_path size env.entries

/-- The calls of the passphrase prompt hold no libcryptsetup, mount or umount
call. -/
theorem get_hidden_passphrase_calls (env : PromptEnv) (term : Termios)
    (passphrase : List Nat) (size : Nat) :
    ∀ e ∈ (get_hidden_passphrase env term passphrase size).trace,
      e.is_activate = false ∧ e.is_deactivate = false ∧ e.is_umount = false ∧
      e.is_mount = false ∧ e.is_mkdir = false ∧ e.is_free = false ∧
      e.is_init_ok = false ∧ e.is_load_ok = false ∧ e.is_activate_ok = false ∧
      e.is_failed_step = false := by
  simp only [get_hidden_passphrase]
  split_ifs <;>
    simp only [List.mem_append, List.mem_cons, List.mem_singleton, List.not_mem_nil, or_false,
      false_or, or_imp, forall_and, forall_eq, Event.is_activate, Event.is_deactivate,
      Event.is_umount, Event.is_mount, Event.is_mkdir, Event.is_free, Event.is_init_ok,
      Event.is_load_ok, Event.is_activate_ok, Event.is_failed_step, and_self, implies_true]

/-- A lookup event is none of the pipeline calls. -/
theorem lookup_event_neutral (e : Event) (h : e.is_lookup = true) :
    e.is_activate = false ∧ e.is_deactivate = false ∧ e.is_umount = false ∧
    e.is_mount = false ∧ e.is_mkdir = false ∧ e.is_free = false ∧
    e.is_init_ok = false ∧ e.is_load_ok = false ∧ e.is_activate_ok = false ∧
    e.is_failed_step = false ∧ e.is_sync = false ∧ e.is_init_by_name = false := by
  cases e <;> simp_all [Event.is_lookup, Event.is_activate, Event.is_deactivate,
    Event.is_umount, Event.is_mount, Event.is_mkdir, Event.is_free, Event.is_init_ok,
    Event.is_load_ok, Event.is_activate_ok, Event.is_failed_step, Event.is_sync,
    Event.is_init_by_name]

/-- The calls of a lookup are none of the pipeline calls. -/
theorem get_device_by_uuid_calls (env : UdevEnv) (uuid : String) (device_path : List Nat)
    (size : Nat) :
    ∀ e ∈ (get_device_by_uuid env uuid device_path size).trace,
      e.is_activate = false ∧ e.is_deactivate = false ∧ e.is_umount = false ∧
      e.is_mount = false ∧ e.is_mkdir = false ∧ e.is_free = false ∧
      e.is_init_ok = false ∧ e.is_load_ok = false ∧ e.is_activate_ok = false ∧
      e.is_failed_step = false ∧ e.is_sync = false ∧ e.is_init_by_name = false :=
  fun e he => lookup_event_neutral e (get_device_by_uuid_lookup env uuid device_path size e he)

/-! ## What each transition never calls -/

theorem lock_partition_never_activates (o : Oracle) :
    ∀ e ∈ lock_partition o, e.is_activate = false := by
  simp only [lock_partition, is_unlocked, wait_for_user]
  split_ifs <;>
    simp only [List.mem_append, List.mem_cons, List.mem_singleton, List.not_mem_nil, or_false,
      false_or, or_imp, forall_and, forall_eq, Event.is_activate, and_self, implies_true]

theorem unlock_partition_never_locks (o : Oracle) :
    ∀ e ∈ (unlock_partition o).trace, e.is_deactivate = false ∧ e.is_umount = false := by
  have hl := get_device_by_uuid_calls o.udev LUKS_DEVICE_UUID (List.replicate PATH_MAX 0)
    PATH_MAX
  have hp := get_hidden_passphrase_calls o.prompt o.term (List.replicate MAX_PASS_LEN 0)
    MAX_PASS_LEN
  simp only [unlock_partition, wait_for_user]
  split_ifs <;>
    simp only [List.mem_append, List.mem_cons, List.mem_singleton, List.not_mem_nil, or_false,
      false_or, or_imp, forall_and, forall_eq, Event.is_deactivate, Event.is_umount, and_self,
      implies_true, and_true, true_and] <;>
    first
      | exact ⟨fun e he => (hl e he).2.1, fun e he => (hl e he).2.2.1⟩
      | exact ⟨⟨fun e he => (hl e he).2.1, fun e he => (hp e he).2.1⟩,
          fun e he => (hl e he).2.2.1, fun e he => (hp e he).2.2.1⟩

/-! ## The claims -/

/-- C1: in every run of `main`, whatever the external services answer: when
`is_unlocked` returns true at entry the calls of the run are exactly the `stat`
call, one message and the calls of one run of `lock_partition`, and
`crypt_activate_by_passphrase` is never called; when it returns false they are the
`stat` call, one message and the calls of one run of `unlock_partition`, and
neither `crypt_deactivate` nor `umount` is called.  So exactly one of the two
transitions is dispatched per run. -/
theorem main_dispatches_one_transition (o : Oracle) :
    ((is_unlocked o.stat_main).1 = true →
      (main o).trace = (is_unlocked o.stat_main).2
        ++ [Event.printf "Partition is already unlocked. Locking it now...\n"]
        ++ lock_partition o ∧
      ∀ e ∈ (main o).trace, e.is_activate = false) ∧
    ((is_unlocked o.stat_main).1 = false →
      (main o).trace = (is_unlocked o.stat_main).2
        ++ [Event.printf "Partition is locked. Unlocking now...\n"]
        ++ (unlock_partition o).trace ∧
      ∀ e ∈ (main o).trace, e.is_deactivate = false ∧ e.is_umount = false) := by
  constructor
  · intro h
    have hm : (main o).trace = (is_unlocked o.stat_main).2
        ++ [Event.printf "Partition is already unlocked. Locking it now...\n"]
        ++ lock_partition o := by
      simp only [main, h, if_true]
    refine ⟨hm, ?_⟩
    rw [hm]
    intro e he
    simp only [is_unlocked, List.mem_append, List.mem_cons, List.mem_singleton,
      List.not_mem_nil, or_false] at he
    rcases he with (rfl | rfl) | he
    · rfl
    · rfl
    · exact lock_partition_never_activates o e he
  · intro h
    have hm : (main o).trace = (is_unlocked o.stat_main).2
        ++ [Event.printf "Partition is locked. Unlocking now...\n"]
        ++ (unlock_partition o).trace := by
      simp only [main, h, Bool.false_eq_true, if_false]
    refine ⟨hm, ?_⟩
    rw [hm]
    intro e he
    simp only [is_unlocked, List.mem_append, List.mem_cons, List.mem_singleton,
      List.not_mem_nil, or_false] at he
    rcases he with (rfl | rfl) | he
    · exact ⟨rfl, rfl⟩
    · exact ⟨rfl, rfl⟩
    · exact unlock_partition_never_locks o e he

/-- C4: in every run of `lock_partition` in which the mapping is present (the
`stat` of `is_unlocked` succeeds) and `umount` fails, the calls are exactly `stat`,
the flush message, `sync`, the failing `umount`, `perror` and `wait_for_user`: the
function returns without calling `crypt_init_by_name`, `crypt_deactivate` or
`crypt_free`, so this run does nothing that removes the mapping.  And in every run
each `umount` call comes after a `sync` call. -/
theorem lock_stops_when_umount_fails (o : Oracle) :
    ((is_unlocked o.stat_lock).1 = true → o.umount ≠ 0 →
      lock_partition o =
        [Event.stat MAPPED_DEVICE o.stat_lock, Event.printf "Flushing write buffers...\n",
         Event.sync, Event.umount MOUNT_POINT o.umount,
         Event.perror "Error: Failed to unmount the partition"] ++ wait_for_user ∧
      ∀ e ∈ lock_partition o,
        e.is_init_by_name = false ∧ e.is_deactivate = false ∧ e.is_free = false) ∧
    (∀ front e back, lock_partition o = front ++ e :: back → e.is_umount = true →
      ∃ x ∈ front, x.is_sync = true) := by
  constructor
  · intro h hu
    have hl : lock_partition o =
        [Event.stat MAPPED_DEVICE o.stat_lock, Event.printf "Flushing write buffers...\n",
         Event.sync, Event.umount MOUNT_POINT o.umount,
         Event.perror "Error: Failed to unmount the partition"] ++ wait_for_user := by
      have h0 : o.stat_lock = 0 := by simpa [is_unlocked] using h
      simp [lock_partition, is_unlocked, h0, hu]
    refine ⟨hl, ?_⟩
    rw [hl]
    simp only [wait_for_user, List.mem_append, List.mem_cons, List.mem_singleton,
      List.not_mem_nil, or_false, false_or, or_imp, forall_and, forall_eq,
      Event.is_init_by_name, Event.is_deactivate, Event.is_free, and_self]
  · intro front e back h he
    have hc : each_preceded Event.is_sync Event.is_umount false (lock_partition o) = true := by
      simp only [lock_partition, is_unlocked, wait_for_user]
      split_ifs <;> rfl
    rcases each_preceded_sound _ _ _ _ hc front e back h he with h1 | h1
    · cases h1
    · exact h1

theorem each_preceded_neutral (p q : Event → Bool) (us rest : List Event) (seen : Bool)
    (hp : ∀ e ∈ us, p e = false) (hq : ∀ e ∈ us, q e = false) :
    each_preceded p q seen (us ++ rest) = each_preceded p q seen rest :=
  each_preceded_append p q us rest seen (fun e he => ⟨hp e he, hq e he⟩)

/-- The unlock pipeline as seen by the checkers: each `mount` call comes after a
successful `crypt_init`, `crypt_load` and `crypt_activate_by_passphrase`, and after
a failed step there is no activation, `mkdir` or `mount`. -/
theorem unlock_partition_checked (o : Oracle) :
    each_preceded Event.is_init_ok Event.is_mount false (unlock_partition o).trace = true ∧
    each_preceded Event.is_load_ok Event.is_mount false (unlock_partition o).trace = true ∧
    each_preceded Event.is_activate_ok Event.is_mount false (unlock_partition o).trace = true ∧
    none_after Event.is_failed_step
      (fun x => x.is_activate || x.is_mkdir || x.is_mount) (unlock_partition o).trace = true := by
  have hl := get_device_by_uuid_calls o.udev LUKS_DEVICE_UUID (List.replicate PATH_MAX 0)
    PATH_MAX
  have hp := get_hidden_passphrase_calls o.prompt o.term (List.replicate MAX_PASS_LEN 0)
    MAX_PASS_LEN
  have hl1 := fun e he => (hl e he).2.2.2.1
  have hl2 := fun e he => (hl e he).2.2.2.2.2.2.1
  have hl3 := fun e he => (hl e he).2.2.2.2.2.2.2.1
  have hl4 := fun e he => (hl e he).2.2.2.2.2.2.2.2.1
  have hl5 := fun e he => (hl e he).2.2.2.2.2.2.2.2.2.1
  have hp1 := fun e he => (hp e he).2.2.2.1
  have hp2 := fun e he => (hp e he).2.2.2.2.2.2.1
  have hp3 := fun e he => (hp e he).2.2.2.2.2.2.2.1
  have hp4 := fun e he => (hp e he).2.2.2.2.2.2.2.2.1
  have hp5 := fun e he => (hp e he).2.2.2.2.2.2.2.2.2
  simp only [unlock_partition, wait_for_user]
  split_ifs with h1 h2 h3 h4 h5 <;>
    simp only [List.append_assoc, List.cons_append, List.nil_append]
  all_goals
    rw [each_preceded_neutral _ _ _ _ _ hl2 hl1, each_preceded_neutral _ _ _ _ _ hl3 hl1,
      each_preceded_neutral _ _ _ _ _ hl4 hl1, none_after_append _ _ _ _ hl5]
  · simp [each_preceded, none_after, Event.is_init_ok, Event.is_load_ok, Event.is_activate_ok,
      Event.is_mount, Event.is_failed_step, Event.is_activate, Event.is_mkdir]
  · simp [each_preceded, none_after, Event.is_init_ok, Event.is_load_ok, Event.is_activate_ok,
      Event.is_mount, Event.is_failed_step, Event.is_activate, Event.is_mkdir]
  · simp [each_preceded, none_after, Event.is_init_ok, Event.is_load_ok, Event.is_activate_ok,
      Event.is_mount, Event.is_failed_step, Event.is_activate, Event.is_mkdir]
  all_goals
    have d1 : decide (0 ≤ o.crypt_init) = true := decide_eq_true (not_lt.mp h2)
    have d2 : decide (o.crypt_init < 0) = false := decide_eq_false h2
    have d3 : decide (0 ≤ o.crypt_load) = true := decide_eq_true (not_lt.mp h3)
    have d4 : decide (o.crypt_load < 0) = false := decide_eq_false h3
    simp only [each_preceded, none_after, Event.is_init_ok, Event.is_load_ok,
      Event.is_activate_ok, Event.is_mount, Event.is_failed_step, d1, d2, d3, d4,
      Bool.not_false, Bool.true_or, Bool.or_false, Bool.false_or, Bool.true_and,
      Bool.or_true, Bool.and_true]
    rw [each_preceded_neutral _ _ _ _ _ hp2 hp1, each_preceded_neutral _ _ _ _ _ hp3 hp1,
      each_preceded_neutral _ _ _ _ _ hp4 hp1, none_after_append _ _ _ _ hp5]
  · simp [each_preceded, none_after, Event.is_init_ok, Event.is_load_ok, Event.is_activate_ok,
      Event.is_mount, Event.is_failed_step, Event.is_activate, Event.is_mkdir]
  all_goals
    have d5 : 0 ≤ o.crypt_activate_by_passphrase := not_lt.mp h4
    simp [each_preceded, none_after, Event.is_init_ok, Event.is_load_ok, Event.is_activate_ok,
      Event.is_mount, Event.is_failed_step, Event.is_activate, Event.is_mkdir, d5]

theorem unlock_partition_not_found (o : Oracle)
    (h : (get_device_by_uuid o.udev LUKS_DEVICE_UUID (List.replicate PATH_MAX 0)
      PATH_MAX).ret ≠ 0) :
    ∀ e ∈ (unlock_partition o).trace,
      e.is_activate = false ∧ e.is_mkdir = false ∧ e.is_mount = false := by
  have hl := get_device_by_uuid_calls o.udev LUKS_DEVICE_UUID (List.replicate PATH_MAX 0)
    PATH_MAX
  simp only [unlock_partition, wait_for_user]
  rw [if_pos h]
  intro e he
  simp only [List.mem_append, List.mem_cons, List.mem_singleton, List.not_mem_nil,
    or_false] at he
  rcases he with (he | rfl) | rfl | rfl
  · exact ⟨(hl e he).1, (hl e he).2.2.2.2.1, (hl e he).2.2.2.1⟩
  · exact ⟨rfl, rfl, rfl⟩
  · exact ⟨rfl, rfl, rfl⟩
  · exact ⟨rfl, rfl, rfl⟩

/-- C6: in every run of `unlock_partition`, a `mount` call happens only when
`get_device_by_uuid` returned 0 and, earlier in the same run, `crypt_init`,
`crypt_load` and `crypt_activate_by_passphrase` were called and succeeded.  When
`get_device_by_uuid` fails the run has no activation, `mkdir` or `mount` call, and
after a failed `crypt_init`, `crypt_load` or `crypt_activate_by_passphrase` call no
activation, `mkdir` or `mount` call follows. -/
theorem mount_only_after_successful_unlock (o : Oracle) :
    (∀ front e back, (unlock_partition o).trace = front ++ e :: back → e.is_mount = true →
      (get_device_by_uuid o.udev LUKS_DEVICE_UUID (List.replicate PATH_MAX 0)
        PATH_MAX).ret = 0 ∧
      (∃ x ∈ front, x.is_init_ok = true) ∧ (∃ x ∈ front, x.is_load_ok = true) ∧
      (∃ x ∈ front, x.is_activate_ok = true)) ∧
    ((get_device_by_uuid o.udev LUKS_DEVICE_UUID (List.replicate PATH_MAX 0)
        PATH_MAX).ret ≠ 0 →
      ∀ e ∈ (unlock_partition o).trace,
        e.is_activate = false ∧ e.is_mkdir = false ∧ e.is_mount = false) ∧
    (∀ front e back, (unlock_partition o).trace = front ++ e :: back →
      e.is_failed_step = true →
      ∀ x ∈ back, x.is_activate = false ∧ x.is_mkdir = false ∧ x.is_mount = false) := by
  obtain ⟨c1, c2, c3, c4⟩ := unlock_partition_checked o
  refine ⟨?_, unlock_partition_not_found o, ?_⟩
  · intro front e back h he
    refine ⟨?_, ?_, ?_, ?_⟩
    · by_contra hne
      have hm := (unlock_partition_not_found o hne e (by rw [h]; simp)).2.2
      rw [he] at hm
      cases hm
    · rcases each_preceded_sound _ _ _ _ c1 front e back h he with h1 | h1
      · cases h1
      · exact h1
    · rcases each_preceded_sound _ _ _ _ c2 front e back h he with h1 | h1
      · cases h1
      · exact h1
    · rcases each_preceded_sound _ _ _ _ c3 front e back h he with h1 | h1
      · cases h1
      · exact h1
  · intro front e back h he x hx
    have hq := none_after_sound _ _ _ c4 front e back h he x hx
    simp only [Bool.or_eq_false_iff] at hq
    exact ⟨hq.1.1, hq.1.2, hq.2⟩

/-- C8: for every outcome of the read in `get_hidden_passphrase`: when echo was
disabled by the function (`tcgetattr` and the first `tcsetattr` returned 0), the
`tcsetattr` calls of the run are exactly two, the one that installs the no-echo
settings and, after the `fgets` call, one that passes the settings saved at entry;
nothing but messages follows that restoring call, and when it succeeds the terminal
attributes at exit equal those at entry.  When echo could not be disabled, no
`tcsetattr` call succeeded and the terminal attributes are unchanged. -/
theorem terminal_restored_after_prompt (env : PromptEnv) (term : Termios)
    (passphrase : List Nat) (size : Nat) :
    (env.tcgetattr = 0 → env.tcsetattr_noecho = 0 →
      tcsetattr_calls (get_hidden_passphrase env term passphrase size).trace =
        [(clear_echo term, 0), (term, env.tcsetattr_restore)] ∧
      (∃ front back,
        (get_hidden_passphrase env term passphrase size).trace =
          front ++ Event.tcsetattr term env.tcsetattr_restore :: back ∧
        Event.tcsetattr (clear_echo term) 0 ∈ front ∧
        Event.fgets (size_to_int size)
          (fgets passphrase (size_to_int size) env.stdin).ok ∈ front ∧
        tcsetattr_calls back = []) ∧
      (env.tcsetattr_restore = 0 →
        (get_hidden_passphrase env term passphrase size).term = term)) ∧
    (¬ (env.tcgetattr = 0 ∧ env.tcsetattr_noecho = 0) →
      (get_hidden_passphrase env term passphrase size).term = term ∧
      ∀ call ∈ tcsetattr_calls (get_hidden_passphrase env term passphrase size).trace,
        call.2 ≠ 0) := by
  constructor
  · intro h1 h2
    refine ⟨?_, ?_, ?_⟩
    · simp only [get_hidden_passphrase, h1, h2, ne_eq, not_true_eq_false, if_false]
      split_ifs <;> simp [tcsetattr_calls]
    · refine ⟨[Event.tcgetattr env.tcgetattr,
          Event.tcsetattr (clear_echo term) env.tcsetattr_noecho,
          Event.printf "Enter LUKS passphrase: ",
          Event.fgets (size_to_int size) (fgets passphrase (size_to_int size) env.stdin).ok]
          ++ (if (fgets passphrase (size_to_int size) env.stdin).ok then []
              else [Event.fprintf_stderr "Error: Failed to read passphrase.\n"]),
        (if env.tcsetattr_restore ≠ 0 then
          [Event.fprintf_stderr "Error: Failed to restore terminal settings.\n"]
         else []) ++ [Event.printf "\n"], ?_, ?_, ?_, ?_⟩
      · simp only [get_hidden_passphrase, h1, h2]
        simp
      · simp [h2]
      · simp
      · split_ifs <;> simp [tcsetattr_calls]
    · intro h3
      simp [get_hidden_passphrase, h1, h2, h3]
  · intro h
    by_cases h1 : env.tcgetattr = 0
    · have h2 : env.tcsetattr_noecho ≠ 0 := fun h2 => h ⟨h1, h2⟩
      simp [get_hidden_passphrase, h1, h2, tcsetattr_calls]
    · simp [get_hidden_passphrase, h1, tcsetattr_calls]

/-! ## Lemmas on byte buffers -/

theorem takeWhile_stop (p : Nat → Bool) (l : List Nat) (x : Nat) (rest : List Nat)
    (hl : ∀ a ∈ l, p a = true) (hx : p x = false) :
    (l ++ x :: rest).takeWhile p = l := by
  induction l with
  | nil => simp [List.takeWhile_cons, hx]
  | cons a l ih =>
    have ha := hl a (List.mem_cons_self _ _)
    simp only [List.cons_append, List.takeWhile_cons, ha, if_true, List.cons.injEq, true_and]
    exact ih (fun b hb => hl b (List.mem_cons_of_mem _ hb))

theorem set_at_length (l : List Nat) (x v : Nat) (rest : List Nat) :
    (l ++ x :: rest).set l.length v = l ++ v :: rest := by
  induction l with
  | nil => rfl
  | cons a l ih => simp [ih]

theorem getElem_at_length (l : List Nat) (x : Nat) (rest : List Nat) :
    (l ++ x :: rest)[l.length]? = some x := by
  induction l with
  | nil => simp
  | cons a l ih => simpa using ih

theorem fgets_chars_line (k : Nat) :
    ∀ stream : List Nat,
      fgets_chars k stream = (stream.takeWhile (fun b => b != NEWLINE)).take k ∨
      fgets_chars k stream = (stream.takeWhile (fun b => b != NEWLINE)).take k ++ [NEWLINE] := by
  induction k with
  | zero => intro stream; left; simp [fgets_chars]
  | succ k ih =>
    intro stream
    cases stream with
    | nil => left; simp [fgets_chars]
    | cons c cs =>
      by_cases hc : c = NEWLINE
      · right; simp [fgets_chars, hc, List.takeWhile_cons]
      · have hb : (c != NEWLINE) = true := by simpa using hc
        rcases ih cs with h | h
        · left; simp [fgets_chars, hc, List.takeWhile_cons, hb, h]
        · right; simp [fgets_chars, hc, List.takeWhile_cons, hb, h]

theorem line_has_no_newline (k : Nat) (stream : List Nat) :
    ∀ a ∈ (stream.takeWhile (fun b => b != NEWLINE)).take k, a ≠ NEWLINE := by
  intro a ha
  have h := List.mem_takeWhile_imp (List.mem_of_mem_take ha)
  simpa using h

theorem size_to_int_small (n : Nat) (h : n < 2 ^ 31) : size_to_int n = (n : Int) := by
  have h1 : n % 2 ^ 32 = n := Nat.mod_eq_of_lt (by omega)
  simp only [size_to_int, h1]
  rw [if_pos h]

theorem fgets_chars_length (k : Nat) :
    ∀ stream : List Nat, (fgets_chars k stream).length ≤ k := by
  induction k with
  | zero => intro stream; simp [fgets_chars]
  | succ k ih =>
    intro stream
    cases stream with
    | nil => simp [fgets_chars]
    | cons c cs =>
      by_cases hc : c = NEWLINE
      · simp [fgets_chars, hc]
      · simpa [fgets_chars, hc] using ih cs

theorem fgets_ok_buf (buf : List Nat) (n : Nat) (stream : List Nat)
    (h : (fgets buf (n : Int) stream).ok = true) :
    1 ≤ n ∧ (fgets buf (n : Int) stream).buf = store_line buf (fgets_chars (n - 1) stream) := by
  rcases Nat.lt_trichotomy n 1 with h0 | h1 | h2
  · have : n = 0 := by omega
    subst this
    simp [fgets] at h
  · subst h1
    simp [fgets, fgets_chars]
  · have e1 : ¬ ((n : Int) ≤ 0) := by omega
    have e2 : ¬ ((n : Int) = 1) := by omega
    simp only [fgets, e1, e2, if_false, Int.toNat_ofNat] at h ⊢
    split_ifs at h ⊢ with h3
    exact ⟨by omega, rfl⟩

theorem store_line_length (buf chars : List Nat) (h : chars.length + 1 ≤ buf.length) :
    (store_line buf chars).length = buf.length := by
  simp only [store_line, List.length_append, List.length_cons, List.length_nil,
    List.length_drop]
  omega

/-- The buffer after the newline has been cut off, for a line without NUL. -/
theorem strip_stored_line (buf : List Nat) (k : Nat) (stream : List Nat)
    (hnul : 0 ∉ (stream.takeWhile (fun b => b != NEWLINE)).take k) :
    strcspn (store_line buf (fgets_chars k stream)) [NEWLINE]
      = ((stream.takeWhile (fun b => b != NEWLINE)).take k).length ∧
    ∃ rest, (store_line buf (fgets_chars k stream)).set
        (strcspn (store_line buf (fgets_chars k stream)) [NEWLINE]) 0
      = (stream.takeWhile (fun b => b != NEWLINE)).take k ++ 0 :: rest := by
  have hgood : ∀ a ∈ (stream.takeWhile (fun b => b != NEWLINE)).take k,
      (a != 0 && !([NEWLINE].contains a)) = true := by
    intro a ha
    have h1 : a ≠ NEWLINE := line_has_no_newline k stream a ha
    have h2 : a ≠ 0 := fun h => hnul (h ▸ ha)
    simp [h1, h2]
  rcases fgets_chars_line k stream with h | h
  · have hs : store_line buf (fgets_chars k stream)
        = (stream.takeWhile (fun b => b != NEWLINE)).take k
          ++ 0 :: buf.drop ((fgets_chars k stream).length + 1) := by
      simp only [store_line, List.append_assoc, List.singleton_append]
      rw [← h]
    have hc : strcspn (store_line buf (fgets_chars k stream)) [NEWLINE]
        = ((stream.takeWhile (fun b => b != NEWLINE)).take k).length := by
      rw [hs, strcspn, takeWhile_stop _ _ _ _ hgood (by simp)]
    refine ⟨hc, buf.drop ((fgets_chars k stream).length + 1), ?_⟩
    rw [hc, hs, set_at_length]
  · have hs : store_line buf (fgets_chars k stream)
        = (stream.takeWhile (fun b => b != NEWLINE)).take k
          ++ NEWLINE :: 0 :: buf.drop ((fgets_chars k stream).length + 1) := by
      simp only [store_line]
      rw [h]
      simp
    have hc : strcspn (store_line buf (fgets_chars k stream)) [NEWLINE]
        = ((stream.takeWhile (fun b => b != NEWLINE)).take k).length := by
      rw [hs, strcspn, takeWhile_stop _ _ _ _ hgood (by simp)]
    refine ⟨hc, 0 :: buf.drop ((fgets_chars k stream).length + 1), ?_⟩
    rw [hc, hs, set_at_length]

theorem cstr_of_line (line rest : List Nat) (h : 0 ∉ line) : cstr (line ++ 0 :: rest) = line := by
  unfold cstr
  apply takeWhile_stop
  · intro a ha
    have : a ≠ 0 := fun h0 => h (h0 ▸ ha)
    simpa using this
  · simp

/-- The buffer `get_hidden_passphrase` leaves when the terminal calls succeed and
`fgets` reads a line without NUL: the line, a NUL, and further bytes. -/
theorem prompt_buffer (env : PromptEnv) (term : Termios) (passphrase : List Nat) (n : Nat)
    (hmax : n < 2 ^ 31) (hlen : passphrase.length = n)
    (h1 : env.tcgetattr = 0) (h2 : env.tcsetattr_noecho = 0)
    (hread : (fgets passphrase (size_to_int n) env.stdin).ok = true)
    (hnul : 0 ∉ (env.stdin.takeWhile (fun b => b != NEWLINE)).take (n - 1)) :
    1 ≤ n ∧
    (get_hidden_passphrase env term passphrase n).passphrase.length = n ∧
    ∃ rest, (get_hidden_passphrase env term passphrase n).passphrase
      = (env.stdin.takeWhile (fun b => b != NEWLINE)).take (n - 1) ++ 0 :: rest := by
  rw [size_to_int_small n hmax] at hread
  obtain ⟨hn, hbuf⟩ := fgets_ok_buf passphrase n env.stdin hread
  have hp : (get_hidden_passphrase env term passphrase n).passphrase
      = (store_line passphrase (fgets_chars (n - 1) env.stdin)).set
          (strcspn (store_line passphrase (fgets_chars (n - 1) env.stdin)) [NEWLINE]) 0 := by
    simp only [get_hidden_passphrase, h1, h2, ne_eq, not_true_eq_false, if_false]
    rw [size_to_int_small n hmax, hbuf]
  obtain ⟨_, rest, hrest⟩ := strip_stored_line passphrase (n - 1) env.stdin hnul
  refine ⟨hn, ?_, rest, ?_⟩
  · rw [hp, List.length_set, store_line_length]
    · exact hlen
    · have := fgets_chars_length (n - 1) env.stdin
      omega
  · rw [hp, hrest]

/-- When the lookup, `crypt_init` and `crypt_load` succeed, `unlock_partition` calls
`crypt_activate_by_passphrase` with the C string the prompt left and its
`strlen`. -/
theorem unlock_partition_activates (o : Oracle)
    (hf : (get_device_by_uuid o.udev LUKS_DEVICE_UUID (List.replicate PATH_MAX 0)
      PATH_MAX).ret = 0)
    (hi : 0 ≤ o.crypt_init) (hl : 0 ≤ o.crypt_load) :
    Event.crypt_activate_by_passphrase o.cd MAPPER_NAME
      ((get_hidden_passphrase o.prompt o.term (List.replicate MAX_PASS_LEN 0)
        MAX_PASS_LEN).passphrase.take
        (strlen (get_hidden_passphrase o.prompt o.term (List.replicate MAX_PASS_LEN 0)
          MAX_PASS_LEN).passphrase))
      (strlen (get_hidden_passphrase o.prompt o.term (List.replicate MAX_PASS_LEN 0)
        MAX_PASS_LEN).passphrase)
      o.crypt_activate_by_passphrase ∈ (unlock_partition o).trace := by
  have hi2 : ¬ o.crypt_init < 0 := not_lt.mpr hi
  have hl2 : ¬ o.crypt_load < 0 := not_lt.mpr hl
  simp only [unlock_partition, hf, ne_eq, not_true_eq_false, if_false, hi2, hl2]
  split_ifs <;> simp

/-- C10 (amended): for every buffer of size `n` with `1 <= n <= INT_MAX`, when the
terminal calls succeed and `fgets` reads input, and the bytes read before the first
newline hold no NUL, the passphrase `get_hidden_passphrase` returns is the input up
to but excluding its first newline, limited to `n - 1` bytes: the C string in the
buffer is that line, it holds no newline, it is terminated by a NUL inside the
buffer, and its `strlen` is the length of the line.  In `unlock_partition` this
line and this length are what `crypt_activate_by_passphrase` is called with. -/
theorem passphrase_is_stripped_line (env : PromptEnv) (term : Termios)
    (passphrase : List Nat) (n : Nat)
    (hn : 1 ≤ n) (hmax : n < 2 ^ 31) (hlen : passphrase.length = n)
    (h1 : env.tcgetattr = 0) (h2 : env.tcsetattr_noecho = 0)
    (hread : (fgets passphrase (size_to_int n) env.stdin).ok = true)
    (hnul : 0 ∉ (env.stdin.takeWhile (fun b => b != NEWLINE)).take (n - 1)) :
    (cstr (get_hidden_passphrase env term passphrase n).passphrase
        = (env.stdin.takeWhile (fun b => b != NEWLINE)).take (n - 1) ∧
      NEWLINE ∉ cstr (get_hidden_passphrase env term passphrase n).passphrase ∧
      (get_hidden_passphrase env term passphrase n).passphrase.length = n ∧
      strlen (get_hidden_passphrase env term passphrase n).passphrase < n ∧
      (get_hidden_passphrase env term passphrase n).passphrase[
        strlen (get_hidden_passphrase env term passphrase n).passphrase]? = some 0 ∧
      strlen (get_hidden_passphrase env term passphrase n).passphrase
        = ((env.stdin.takeWhile (fun b => b != NEWLINE)).take (n - 1)).length) ∧
    (∀ o : Oracle, o.prompt = env → o.term = term →
      passphrase = List.replicate MAX_PASS_LEN 0 → n = MAX_PASS_LEN →
      (get_device_by_uuid o.udev LUKS_DEVICE_UUID (List.replicate PATH_MAX 0)
        PATH_MAX).ret = 0 →
      0 ≤ o.crypt_init → 0 ≤ o.crypt_load →
      Event.crypt_activate_by_passphrase o.cd MAPPER_NAME
        ((env.stdin.takeWhile (fun b => b != NEWLINE)).take (n - 1))
        ((env.stdin.takeWhile (fun b => b != NEWLINE)).take (n - 1)).length
        o.crypt_activate_by_passphrase ∈ (unlock_partition o).trace) := by
  obtain ⟨_, hl, rest, hr⟩ := prompt_buffer env term passphrase n hmax hlen h1 h2 hread hnul
  have hc : cstr (get_hidden_passphrase env term passphrase n).passphrase
      = (env.stdin.takeWhile (fun b => b != NEWLINE)).take (n - 1) := by
    rw [hr]; exact cstr_of_line _ _ hnul
  have hs : strlen (get_hidden_passphrase env term passphrase n).passphrase
      = ((env.stdin.takeWhile (fun b => b != NEWLINE)).take (n - 1)).length := by
    rw [strlen, hc]
  have hlt : ((env.stdin.takeWhile (fun b => b != NEWLINE)).take (n - 1)).length < n := by
    have := List.length_take_le (n - 1) (env.stdin.takeWhile (fun b => b != NEWLINE))
    omega
  refine ⟨⟨hc, ?_, hl, ?_, ?_, hs⟩, ?_⟩
  · rw [hc]
    exact fun h => line_has_no_newline (n - 1) env.stdin NEWLINE h rfl
  · rw [hs]; exact hlt
  · rw [hs, hr]
    exact getElem_at_length _ _ _
  · intro o ho ht hp hn2 hf hi hload
    have ha := unlock_partition_activates o hf hi hload
    rw [ho, ht, ← hp, ← hn2, hs, hr] at ha
    simpa using ha

/-! ## The scan of `get_device_by_uuid` -/

theorem scan_entries_skips (device_path : List Nat) (size : Nat) (e : UdevEntry)
    (rest : List UdevEntry) (h : e.devnode = none) :
    (scan_entries device_path size (e :: rest)).ret
        = (scan_entries device_path size rest).ret ∧
    (scan_entries device_path size (e :: rest)).device_path
        = (scan_entries device_path size rest).device_path := by
  unfold UdevEntry.devnode at h
  rw [scan_entries]
  split
  · exact ⟨rfl, rfl⟩
  · rename_i dev hdev
    rw [hdev] at h
    simp only at h
    rw [h]
    exact ⟨rfl, rfl⟩

theorem scan_entries_takes (device_path : List Nat) (size : Nat) (e : UdevEntry)
    (rest : List UdevEntry) (node : List Nat) (h : e.devnode = some node) :
    (scan_entries device_path size (e :: rest)).ret = 0 ∧
    (scan_entries device_path size (e :: rest)).device_path
        = strncpy device_path node size := by
  unfold UdevEntry.devnode at h
  rw [scan_entries]
  split
  · rename_i hdev
    rw [hdev] at h
    cases h
  · rename_i dev hdev
    rw [hdev] at h
    simp only at h
    rw [h]
    exact ⟨rfl, rfl⟩

theorem scan_entries_none (device_path : List Nat) (size : Nat) :
    ∀ entries : List UdevEntry, (∀ e ∈ entries, e.devnode = none) →
      (scan_entries device_path size entries).ret = -1 ∧
      (scan_entries device_path size entries).device_path = device_path := by
  intro entries
  induction entries with
  | nil => intro _; exact ⟨rfl, rfl⟩
  | cons e rest ih =>
    intro h
    obtain ⟨h1, h2⟩ := scan_entries_skips device_path size e rest
      (h e (List.mem_cons_self _ _))
    obtain ⟨i1, i2⟩ := ih (fun x hx => h x (List.mem_cons_of_mem _ hx))
    exact ⟨h1.trans i1, h2.trans i2⟩

theorem scan_entries_first (device_path : List Nat) (size : Nat) :
    ∀ (front : List UdevEntry) (e : UdevEntry) (back : List UdevEntry) (node : List Nat),
      (∀ x ∈ front, x.devnode = none) → e.devnode = some node →
      (scan_entries device_path size (front ++ e :: back)).ret = 0 ∧
      (scan_entries device_path size (front ++ e :: back)).device_path
        = strncpy device_path node size := by
  intro front
  induction front with
  | nil => intro e back node _ h; exact scan_entries_takes device_path size e back node h
  | cons a front ih =>
    intro e back node hf h
    obtain ⟨h1, h2⟩ := scan_entries_skips device_path size a (front ++ e :: back)
      (hf a (List.mem_cons_self _ _))
    obtain ⟨i1, i2⟩ := ih e back node (fun x hx => hf x (List.mem_cons_of_mem _ hx)) h
    exact ⟨h1.trans i1, h2.trans i2⟩

theorem scan_entries_ret_iff (device_path : List Nat) (size : Nat) :
    ∀ entries : List UdevEntry,
      (scan_entries device_path size entries).ret = 0 ↔
        ∃ e ∈ entries, ∃ node, e.devnode = some node := by
  intro entries
  constructor
  · intro h
    by_contra hne
    have hall : ∀ e ∈ entries, e.devnode = none := by
      intro e he
      cases hd : e.devnode with
      | none => rfl
      | some node => exact absurd ⟨e, he, node, hd⟩ hne
    have := (scan_entries_none device_path size entries hall).1
    rw [this] at h
    cases h
  · induction entries with
    | nil => rintro ⟨e, he, _⟩; simp at he
    | cons a rest ih =>
      rintro ⟨e, he, node, hn⟩
      cases ha : a.devnode with
      | some node2 => exact (scan_entries_takes device_path size a rest node2 ha).1
      | none =>
        rw [(scan_entries_skips device_path size a rest ha).1]
        apply ih
        rcases List.mem_cons.mp he with rfl | he2
        · rw [ha] at hn; cases hn
        · exact ⟨e, he2, node, hn⟩

theorem get_device_by_uuid_scanned (env : UdevEnv) (uuid : String) (device_path : List Nat)
    (size : Nat) (h1 : env.udev_new = true) (h2 : env.udev_enumerate_new = true) :
    (get_device_by_uuid env uuid device_path size).ret
        = (scan_entries device_path size env.entries).ret ∧
    (get_device_by_uuid env uuid device_path size).device_path
        = (scan_entries device_path size env.entries).device_path := by
  simp [get_device_by_uuid, h1, h2]

theorem cstr_has_no_nul (buf : List Nat) : 0 ∉ cstr buf := by
  intro h
  have := List.mem_takeWhile_imp h
  simp at this

theorem cstr_strncpy (dst src : List Nat) (n : Nat) (h : (cstr src).length < n) :
    cstr (strncpy dst src n) = cstr src := by
  have ht : (cstr src ++ List.replicate n 0).take n
      = cstr src ++ 0 :: List.replicate (n - (cstr src).length - 1) 0 := by
    rw [List.take_append_eq_append_take, List.take_of_length_le (Nat.le_of_lt h),
      List.take_replicate]
    have : min (n - (cstr src).length) n = (n - (cstr src).length - 1) + 1 := by omega
    rw [this, List.replicate_succ]
  rw [strncpy, ht, List.append_assoc, List.cons_append]
  exact cstr_of_line _ _ (cstr_has_no_nul src)

/-- C9 (amended): for every identifier, every caller buffer and size, and every
list of enumerated entries (the udev context and the enumeration object having been
created): `get_device_by_uuid` returns 0 if and only if some entry yields a device
object with a device node; entries without a device object or without a device
node are passed over, and the first entry that has a device node decides the
result: `device_path` is then what `strncpy(device_path, devnode, size)` leaves,
which is the device node as a NUL-terminated string whenever the device node is
shorter than `size`; when no entry qualifies the function returns -1 and
`device_path` is unchanged. -/
theorem get_device_by_uuid_first_match (env : UdevEnv) (uuid : String)
    (device_path : List Nat) (size : Nat)
    (h1 : env.udev_new = true) (h2 : env.udev_enumerate_new = true) :
    ((get_device_by_uuid env uuid device_path size).ret = 0 ↔
      ∃ e ∈ env.entries, ∃ node, e.devnode = some node) ∧
    (∀ front e back node, env.entries = front ++ e :: back →
      (∀ x ∈ front, x.devnode = none) → e.devnode = some node →
      (get_device_by_uuid env uuid device_path size).ret = 0 ∧
      (get_device_by_uuid env uuid device_path size).device_path
        = strncpy device_path node size ∧
      ((cstr node).length < size →
        cstr (get_device_by_uuid env uuid device_path size).device_path = cstr node)) ∧
    ((∀ e ∈ env.entries, e.devnode = none) →
      (get_device_by_uuid env uuid device_path size).ret = -1 ∧
      (get_device_by_uuid env uuid device_path size).device_path = device_path) := by
  obtain ⟨hr, hd⟩ := get_device_by_uuid_scanned env uuid device_path size h1 h2
  rw [hr, hd]
  refine ⟨scan_entries_ret_iff device_path size env.entries, ?_, ?_⟩
  · intro front e back node he hf hn
    rw [he]
    obtain ⟨a, b⟩ := scan_entries_first device_path size front e back node hf hn
    refine ⟨a, b, ?_⟩
    intro hlen
    rw [b]
    exact cstr_strncpy device_path node size hlen
  · exact scan_entries_none device_path size env.entries

/-! ## Runs at which the code departs from a claim -/

set_option maxRecDepth 100000 in
/-- C2, evaluated at a run with a rejected passphrase: the operator types `hunter2`,
`crypt_activate_by_passphrase` is called with it and fails, and when
`unlock_partition` returns the buffer still holds `hunter2`; the claim asks for 256
zero bytes.  In the same run with an accepted passphrase the buffer is all zero at
return. -/
theorem failed_activation_keeps_passphrase :
    Event.crypt_activate_by_passphrase 1 MAPPER_NAME hunter2 7 (-1)
      ∈ (unlock_partition wrong_passphrase_run).trace ∧
    (unlock_partition wrong_passphrase_run).passphrase = hunter2 ++ List.replicate 249 0 ∧
    (unlock_partition wrong_passphrase_run).passphrase ≠ List.replicate MAX_PASS_LEN 0 ∧
    (unlock_partition sample_run).passphrase = List.replicate MAX_PASS_LEN 0 := by
  decide

set_option maxRecDepth 100000 in
/-- C3, evaluated at a run in which `crypt_init` succeeds and `crypt_load` fails:
`unlock_partition` returns after the two calls and the error message without any
`crypt_free` call; the claim asks for exactly one `crypt_free` of the handle. -/
theorem failed_load_leaks_handle :
    Event.crypt_init dev_sdb1 0 1 ∈ (unlock_partition load_fails_run).trace ∧
    Event.crypt_load 1 (-22) ∈ (unlock_partition load_fails_run).trace ∧
    (∀ e ∈ (unlock_partition load_fails_run).trace, e.is_free = false) := by
  decide

/-- C7, evaluated at a run in which `umount` succeeds and `crypt_deactivate` fails
with `-EBUSY`: `lock_partition` ignores the return code and prints the success
message; the claim says a failing `crypt_deactivate` is never reported as a
successful lock. -/
theorem failed_deactivate_reported_as_success :
    lock_partition deactivate_fails_run =
      [Event.stat MAPPED_DEVICE 0,
       Event.printf "Flushing write buffers...\n",
       Event.sync,
       Event.umount MOUNT_POINT 0,
       Event.crypt_init_by_name MAPPER_NAME 0 1,
       Event.crypt_deactivate 1 MAPPER_NAME (-16),
       Event.crypt_free 1,
       Event.printf "USB locked and unmounted successfully.\n",
       Event.printf "\nPress ENTER to exit...\n",
       Event.getchar] := by
  decide

set_option maxRecDepth 100000 in
/-- C5, evaluated at two runs in which standard input is no terminal and
`tcgetattr` fails: `get_hidden_passphrase` prints its error and returns, and
`unlock_partition` goes on.  When the empty passphrase is rejected the calls after
the failed `tcgetattr` are the error message, `crypt_activate_by_passphrase` with
the empty passphrase of length 0, the wrong-passphrase message, `crypt_free` and
`wait_for_user`; when the volume accepts the empty passphrase they go on to `mkdir`
and `mount`.  The claim asks that the pipeline ends at the failed prompt with no
activation, `mkdir` or `mount` call after it. -/
theorem failed_prompt_is_followed_by_activation :
    (unlock_partition no_terminal_rejected_run).trace
      = sample_lookup_trace
        ++ [Event.crypt_init dev_sdb1 0 1, Event.crypt_load 1 0,
            Event.tcgetattr (-1),
            Event.fprintf_stderr "Error: Failed to get terminal attributes.\n",
            Event.crypt_activate_by_passphrase 1 MAPPER_NAME [] 0 (-1),
            Event.fprintf_stderr "Error: Incorrect LUKS passphrase.\n",
            Event.crypt_free 1,
            Event.printf "\nPress ENTER to exit...\n",
            Event.getchar] ∧
    (unlock_partition no_terminal_run).trace
      = sample_lookup_trace
        ++ [Event.crypt_init dev_sdb1 0 1, Event.crypt_load 1 0,
            Event.tcgetattr (-1),
            Event.fprintf_stderr "Error: Failed to get terminal attributes.\n",
            Event.crypt_activate_by_passphrase 1 MAPPER_NAME [] 0 0,
            Event.crypt_free 1,
            Event.mkdir MOUNT_POINT 0,
            Event.mount MAPPED_DEVICE MOUNT_POINT FILESYSTEM_TYPE 0,
            Event.printf "USB unlocked and mounted at /mnt/encrypted_usb\n",
            Event.printf "\nPress ENTER to exit...\n",
            Event.getchar] := by
  decide

/-- A size whose low 32 bits read 2 makes `fgets` take one byte only. -/
theorem prompt_with_wrapped_size (env : PromptEnv) (term : Termios) (buf : List Nat)
    (n a b : Nat) (rest : List Nat) (hs : size_to_int n = 2)
    (h1 : env.tcgetattr = 0) (h2 : env.tcsetattr_noecho = 0)
    (hin : env.stdin = a :: b :: rest) (ha0 : a ≠ 0) (ha : a ≠ NEWLINE) :
    (fgets buf (size_to_int n) env.stdin).ok = true ∧
    cstr (get_hidden_passphrase env term buf n).passphrase = [a] := by
  have hc : fgets_chars 1 (a :: b :: rest) = [a] := by
    simp [fgets_chars, ha]
  have hf : fgets buf 2 (a :: b :: rest)
      = { ok := true, buf := a :: 0 :: buf.drop 2 } := by
    simp [fgets, hc, store_line]
  have hn : ¬ (NEWLINE = a) := fun h => ha h.symm
  constructor
  · rw [hs, hin, hf]
  · simp only [get_hidden_passphrase, h1, h2, ne_eq, not_true_eq_false, if_false, hs, hin, hf]
    have hb : (a != 0) = true := by simpa using ha0
    have hb2 : (a != NEWLINE) = true := by simpa using ha
    simp [strcspn, cstr, List.takeWhile_cons, hb, hb2, hn, ha]

/-! ## Counterexamples to the claims as first stated -/

/-- C9 as stated fails: with a buffer of 4 bytes the first entry that has a device
node is `/dev/sdb1`, the function returns 0, and `device_path` holds the four bytes
`/dev` without a terminator, not the device node. -/
theorem short_buffer_truncates_device_node :
    ¬ ∀ (env : UdevEnv) (uuid : String) (device_path : List Nat) (size : Nat),
      env.udev_new = true → env.udev_enumerate_new = true →
      ∀ front e back node, env.entries = front ++ e :: back →
        (∀ x ∈ front, x.devnode = none) → e.devnode = some node →
        (get_device_by_uuid env uuid device_path size).ret = 0 ∧
        cstr (get_device_by_uuid env uuid device_path size).device_path = cstr node := by
  intro h
  have h4 := (h sample_udev LUKS_DEVICE_UUID (List.replicate 4 0) 4 rfl rfl
    [{ name := "/sys/devices/usb1/block/sda", dev := none },
     { name := "/sys/devices/usb1/block/sdb", dev := some { devnode := none } }]
    { name := "/sys/devices/usb1/block/sdb/sdb1", dev := some { devnode := some dev_sdb1 } }
    [{ name := "/sys/devices/usb2/block/sdc/sdc1", dev := some { devnode := some dev_sdc1 } }]
    dev_sdb1 rfl (by decide) rfl).2
  revert h4
  decide

/-- C10 as stated fails: when the operator types `a`, NUL, `b`, ENTER into a buffer
of 8 bytes, the line without its newline has 3 bytes but the C string returned is
`a` and its `strlen` is 1.  It also fails for a line without NUL when the size does
not fit an `int`: with a size of 2^32 + 2 `fgets` is given 2 and the passphrase
returned for `hunter2` is `h`. -/
theorem nul_byte_shortens_passphrase :
    (¬ ∀ (env : PromptEnv) (term : Termios) (passphrase : List Nat) (n : Nat),
      1 ≤ n → passphrase.length = n → env.tcgetattr = 0 → env.tcsetattr_noecho = 0 →
      (fgets passphrase (size_to_int n) env.stdin).ok = true →
      cstr (get_hidden_passphrase env term passphrase n).passphrase
        = (env.stdin.takeWhile (fun b => b != NEWLINE)).take (n - 1) ∧
      strlen (get_hidden_passphrase env term passphrase n).passphrase
        = ((env.stdin.takeWhile (fun b => b != NEWLINE)).take (n - 1)).length) ∧
    (¬ ∀ (env : PromptEnv) (term : Termios) (passphrase : List Nat) (n : Nat),
      1 ≤ n → passphrase.length = n → env.tcgetattr = 0 → env.tcsetattr_noecho = 0 →
      (fgets passphrase (size_to_int n) env.stdin).ok = true →
      0 ∉ (env.stdin.takeWhile (fun b => b != NEWLINE)).take (n - 1) →
      cstr (get_hidden_passphrase env term passphrase n).passphrase
        = (env.stdin.takeWhile (fun b => b != NEWLINE)).take (n - 1)) := by
  constructor
  · intro h
    have h8 := (h nul_prompt sample_term (List.replicate 8 0) 8 (by decide) rfl rfl rfl
      (by decide)).2
    revert h8
    decide
  · intro h
    have hs : size_to_int 4294967298 = 2 := by decide
    obtain ⟨hok, hc⟩ := prompt_with_wrapped_size sample_prompt sample_term
      (List.replicate 4294967298 0) 4294967298 104 117 [110, 116, 101, 114, 50, NEWLINE]
      hs rfl rfl rfl (by decide) (by decide)
    have h8 := h sample_prompt sample_term (List.replicate 4294967298 0) 4294967298
      (by decide) (List.length_replicate _ _) rfl rfl hok (by decide)
    rw [hc] at h8
    revert h8
    decide

/-! ## The theorems applied to concrete runs -/

/-- C1 at two runs: on an unlocked volume `main` never activates, on a locked one
it never deactivates or unmounts. -/
theorem main_dispatches_one_transition_witness :
    ((is_unlocked unlocked_run.stat_main).1 = true ∧
      (main unlocked_run).trace = (is_unlocked unlocked_run.stat_main).2
        ++ [Event.printf "Partition is already unlocked. Locking it now...\n"]
        ++ lock_partition unlocked_run ∧
      ∀ e ∈ (main unlocked_run).trace, e.is_activate = false) ∧
    ((is_unlocked sample_run.stat_main).1 = false ∧
      (main sample_run).trace = (is_unlocked sample_run.stat_main).2
        ++ [Event.printf "Partition is locked. Unlocking now...\n"]
        ++ (unlock_partition sample_run).trace ∧
      ∀ e ∈ (main sample_run).trace, e.is_deactivate = false ∧ e.is_umount = false) :=
  ⟨⟨by decide, (main_dispatches_one_transition unlocked_run).1 (by decide)⟩,
   ⟨by decide, (main_dispatches_one_transition sample_run).2 (by decide)⟩⟩

/-- C4 at a run on an unlocked volume whose `umount` fails. -/
theorem lock_stops_when_umount_fails_witness :
    (is_unlocked umount_fails_run.stat_lock).1 = true ∧ umount_fails_run.umount ≠ 0 ∧
    (lock_partition umount_fails_run =
        [Event.stat MAPPED_DEVICE umount_fails_run.stat_lock,
         Event.printf "Flushing write buffers...\n",
         Event.sync, Event.umount MOUNT_POINT umount_fails_run.umount,
         Event.perror "Error: Failed to unmount the partition"] ++ wait_for_user ∧
      ∀ e ∈ lock_partition umount_fails_run,
        e.is_init_by_name = false ∧ e.is_deactivate = false ∧ e.is_free = false) ∧
    (∃ x ∈ [Event.stat MAPPED_DEVICE 0, Event.printf "Flushing write buffers...\n",
        Event.sync], x.is_sync = true) :=
  ⟨by decide, by decide,
   (lock_stops_when_umount_fails umount_fails_run).1 (by decide) (by decide),
   (lock_stops_when_umount_fails umount_fails_run).2
     [Event.stat MAPPED_DEVICE 0, Event.printf "Flushing write buffers...\n", Event.sync]
     (Event.umount MOUNT_POINT (-1))
     ([Event.perror "Error: Failed to unmount the partition"] ++ wait_for_user)
     (by decide) rfl⟩

set_option maxRecDepth 100000 in
/-- C6 at three runs: the successful run, where `mount` follows the three
successful steps; a run without a device; and a run with a rejected passphrase. -/
theorem mount_only_after_successful_unlock_witness :
    ((unlock_partition sample_run).trace
        = (sample_lookup_trace
            ++ [Event.crypt_init dev_sdb1 0 1, Event.crypt_load 1 0]
            ++ sample_prompt_trace
            ++ [Event.crypt_activate_by_passphrase 1 MAPPER_NAME hunter2 7 0,
                Event.crypt_free 1, Event.mkdir MOUNT_POINT 0])
          ++ Event.mount MAPPED_DEVICE MOUNT_POINT FILESYSTEM_TYPE 0
            :: ([Event.printf "USB unlocked and mounted at /mnt/encrypted_usb\n"]
                ++ wait_for_user) ∧
      (get_device_by_uuid sample_run.udev LUKS_DEVICE_UUID (List.replicate PATH_MAX 0)
        PATH_MAX).ret = 0 ∧
      (∃ x ∈ sample_lookup_trace
            ++ [Event.crypt_init dev_sdb1 0 1, Event.crypt_load 1 0]
            ++ sample_prompt_trace
            ++ [Event.crypt_activate_by_passphrase 1 MAPPER_NAME hunter2 7 0,
                Event.crypt_free 1, Event.mkdir MOUNT_POINT 0], x.is_init_ok = true) ∧
      (∃ x ∈ sample_lookup_trace
            ++ [Event.crypt_init dev_sdb1 0 1, Event.crypt_load 1 0]
            ++ sample_prompt_trace
            ++ [Event.crypt_activate_by_passphrase 1 MAPPER_NAME hunter2 7 0,
                Event.crypt_free 1, Event.mkdir MOUNT_POINT 0], x.is_load_ok = true) ∧
      (∃ x ∈ sample_lookup_trace
            ++ [Event.crypt_init dev_sdb1 0 1, Event.crypt_load 1 0]
            ++ sample_prompt_trace
            ++ [Event.crypt_activate_by_passphrase 1 MAPPER_NAME hunter2 7 0,
                Event.crypt_free 1, Event.mkdir MOUNT_POINT 0], x.is_activate_ok = true)) ∧
    ((get_device_by_uuid no_device_run.udev LUKS_DEVICE_UUID (List.replicate PATH_MAX 0)
        PATH_MAX).ret ≠ 0 ∧
      ∀ e ∈ (unlock_partition no_device_run).trace,
        e.is_activate = false ∧ e.is_mkdir = false ∧ e.is_mount = false) ∧
    ((unlock_partition wrong_passphrase_run).trace
        = (sample_lookup_trace
            ++ [Event.crypt_init dev_sdb1 0 1, Event.crypt_load 1 0]
            ++ sample_prompt_trace)
          ++ Event.crypt_activate_by_passphrase 1 MAPPER_NAME hunter2 7 (-1)
            :: ([Event.fprintf_stderr "Error: Incorrect LUKS passphrase.\n",
                 Event.crypt_free 1] ++ wait_for_user) ∧
      ∀ x ∈ [Event.fprintf_stderr "Error: Incorrect LUKS passphrase.\n",
             Event.crypt_free 1] ++ wait_for_user,
        x.is_activate = false ∧ x.is_mkdir = false ∧ x.is_mount = false) :=
  ⟨⟨by decide,
    (mount_only_after_successful_unlock sample_run).1 _ _ _
      (show (unlock_partition sample_run).trace
        = (sample_lookup_trace
            ++ [Event.crypt_init dev_sdb1 0 1, Event.crypt_load 1 0]
            ++ sample_prompt_trace
            ++ [Event.crypt_activate_by_passphrase 1 MAPPER_NAME hunter2 7 0,
                Event.crypt_free 1, Event.mkdir MOUNT_POINT 0])
          ++ Event.mount MAPPED_DEVICE MOUNT_POINT FILESYSTEM_TYPE 0
            :: ([Event.printf "USB unlocked and mounted at /mnt/encrypted_usb\n"]
                ++ wait_for_user) by decide) rfl⟩,
   ⟨by decide, (mount_only_after_successful_unlock no_device_run).2.1 (by decide)⟩,
   ⟨by decide,
    (mount_only_after_successful_unlock wrong_passphrase_run).2.2 _ _ _
      (show (unlock_partition wrong_passphrase_run).trace
        = (sample_lookup_trace
            ++ [Event.crypt_init dev_sdb1 0 1, Event.crypt_load 1 0]
            ++ sample_prompt_trace)
          ++ Event.crypt_activate_by_passphrase 1 MAPPER_NAME hunter2 7 (-1)
            :: ([Event.fprintf_stderr "Error: Incorrect LUKS passphrase.\n",
                 Event.crypt_free 1] ++ wait_for_user) by decide) rfl⟩⟩

/-- C8 at two prompts: one where every terminal call succeeds, and one where
`tcgetattr` fails. -/
theorem terminal_restored_after_prompt_witness :
    (sample_prompt.tcgetattr = 0 ∧ sample_prompt.tcsetattr_noecho = 0 ∧
      sample_prompt.tcsetattr_restore = 0 ∧
      tcsetattr_calls (get_hidden_passphrase sample_prompt sample_term
          (List.replicate MAX_PASS_LEN 0) MAX_PASS_LEN).trace
        = [(clear_echo sample_term, 0), (sample_term, sample_prompt.tcsetattr_restore)] ∧
      (get_hidden_passphrase sample_prompt sample_term (List.replicate MAX_PASS_LEN 0)
        MAX_PASS_LEN).term = sample_term) ∧
    (¬ (no_terminal_run.prompt.tcgetattr = 0 ∧ no_terminal_run.prompt.tcsetattr_noecho = 0) ∧
      (get_hidden_passphrase no_terminal_run.prompt sample_term (List.replicate MAX_PASS_LEN 0)
        MAX_PASS_LEN).term = sample_term) :=
  ⟨⟨rfl, rfl, rfl,
    ((terminal_restored_after_prompt sample_prompt sample_term
      (List.replicate MAX_PASS_LEN 0) MAX_PASS_LEN).1 rfl rfl).1,
    ((terminal_restored_after_prompt sample_prompt sample_term
      (List.replicate MAX_PASS_LEN 0) MAX_PASS_LEN).1 rfl rfl).2.2 rfl⟩,
   ⟨by decide,
    ((terminal_restored_after_prompt no_terminal_run.prompt sample_term
      (List.replicate MAX_PASS_LEN 0) MAX_PASS_LEN).2 (by decide)).1⟩⟩

/-- C9 (amended) at the sample enumeration with the buffer of `unlock_partition`:
the two entries without a device node are passed over and `/dev/sdb1` is found. -/
theorem get_device_by_uuid_first_match_witness :
    sample_udev.udev_new = true ∧ sample_udev.udev_enumerate_new = true ∧
    (cstr dev_sdb1).length < PATH_MAX ∧
    (get_device_by_uuid sample_udev LUKS_DEVICE_UUID (List.replicate PATH_MAX 0)
      PATH_MAX).ret = 0 ∧
    (get_device_by_uuid sample_udev LUKS_DEVICE_UUID (List.replicate PATH_MAX 0)
      PATH_MAX).device_path = strncpy (List.replicate PATH_MAX 0) dev_sdb1 PATH_MAX ∧
    cstr (get_device_by_uuid sample_udev LUKS_DEVICE_UUID (List.replicate PATH_MAX 0)
      PATH_MAX).device_path = cstr dev_sdb1 :=
  have h := (get_device_by_uuid_first_match sample_udev LUKS_DEVICE_UUID
    (List.replicate PATH_MAX 0) PATH_MAX rfl rfl).2.1
    [{ name := "/sys/devices/usb1/block/sda", dev := none },
     { name := "/sys/devices/usb1/block/sdb", dev := some { devnode := none } }]
    { name := "/sys/devices/usb1/block/sdb/sdb1", dev := some { devnode := some dev_sdb1 } }
    [{ name := "/sys/devices/usb2/block/sdc/sdc1", dev := some { devnode := some dev_sdc1 } }]
    dev_sdb1 rfl (by decide) rfl
  ⟨rfl, rfl, by decide, h.1, h.2.1, h.2.2 (by decide)⟩

set_option maxRecDepth 100000 in
/-- C10 (amended) at the prompt where the operator types `hunter2` and ENTER into
the 256-byte buffer of `unlock_partition`. -/
theorem passphrase_is_stripped_line_witness :
    (1 ≤ MAX_PASS_LEN ∧ MAX_PASS_LEN < 2 ^ 31 ∧
      (List.replicate MAX_PASS_LEN 0).length = MAX_PASS_LEN ∧
      sample_prompt.tcgetattr = 0 ∧ sample_prompt.tcsetattr_noecho = 0 ∧
      (fgets (List.replicate MAX_PASS_LEN 0) (size_to_int MAX_PASS_LEN)
        sample_prompt.stdin).ok = true ∧
      0 ∉ (sample_prompt.stdin.takeWhile (fun b => b != NEWLINE)).take (MAX_PASS_LEN - 1)) ∧
    (sample_prompt.stdin.takeWhile (fun b => b != NEWLINE)).take (MAX_PASS_LEN - 1)
      = hunter2 ∧
    cstr (get_hidden_passphrase sample_prompt sample_term (List.replicate MAX_PASS_LEN 0)
      MAX_PASS_LEN).passphrase
      = (sample_prompt.stdin.takeWhile (fun b => b != NEWLINE)).take (MAX_PASS_LEN - 1) ∧
    strlen (get_hidden_passphrase sample_prompt sample_term (List.replicate MAX_PASS_LEN 0)
      MAX_PASS_LEN).passphrase
      = ((sample_prompt.stdin.takeWhile (fun b => b != NEWLINE)).take
          (MAX_PASS_LEN - 1)).length ∧
    Event.crypt_activate_by_passphrase sample_run.cd MAPPER_NAME
      ((sample_prompt.stdin.takeWhile (fun b => b != NEWLINE)).take (MAX_PASS_LEN - 1))
      ((sample_prompt.stdin.takeWhile (fun b => b != NEWLINE)).take (MAX_PASS_LEN - 1)).length
      sample_run.crypt_activate_by_passphrase ∈ (unlock_partition sample_run).trace :=
  have h := passphrase_is_stripped_line sample_prompt sample_term
    (List.replicate MAX_PASS_LEN 0) MAX_PASS_LEN (by decide) (by decide) (by decide) rfl rfl
    (by decide) (by decide)
  ⟨⟨by decide, by decide, by decide, rfl, rfl, by decide, by decide⟩, by decide,
   h.1.1, h.1.2.2.2.2.2,
   h.2 sample_run rfl rfl rfl rfl (by decide) (by decide) (by decide)⟩

end LuksUsbManager
